import Mathlib

/-!
Verification of the eGON boot-image inspector (sunxi-boot0.c).

The development shallowly embeds the header validator, the streaming
checksum and the DRAM-parameter variant detector.  A 512-byte sector is a
list of byte values; multi-byte integers are assembled little-endian.  The
input stream is a script: a list of fread results (each a list of 32-bit
words) plus a flag telling whether the forward seek succeeds.  Machine
integers are natural numbers, with an explicit wraparound modulo 2 ^ 32
wherever the C code performs 32-bit addition.
-/

set_option maxRecDepth 8000

/-- Fixed seed of the eGON checksum, EGON_CHECKSUM_SEED in the source. -/
def EGON_CHECKSUM_SEED : Nat := 0x5f0a6c39

/-- Byte i of a sector buffer; bytes past the end read as zero. -/
def sByte (s : List Nat) (i : Nat) : Nat := s.getD i 0

/-- Little-endian 32-bit word i of a sector buffer. -/
def sWord (s : List Nat) (i : Nat) : Nat :=
  sByte s (4 * i) + 2 ^ 8 * sByte s (4 * i + 1) +
    2 ^ 16 * sByte s (4 * i + 2) + 2 ^ 24 * sByte s (4 * i + 3)

/-- The 8 magic bytes of the egon_header (bytes 4..11 of the sector). -/
def magicBytes (s : List Nat) : List Nat :=
  (List.range 8).map (fun i => sByte s (4 + i))

/-- The declared checksum field, word 3 of the header. -/
def hdrChecksum (s : List Nat) : Nat := sWord s 3

/-- The declared filesize field, word 4 of the header. -/
def hdrFilesize (s : List Nat) : Nat := sWord s 4

/-- The declared header_size field, word 5 of the header. -/
def hdrHeaderSize (s : List Nat) : Nat := sWord s 5

/-- Bytes of the magic constant EGON_MAGIC_0, the string eGON.BT0. -/
def egonMagic0 : List Nat := [0x65, 0x47, 0x4F, 0x4E, 0x2E, 0x42, 0x54, 0x30]

/-- Bytes of the magic constant EGON_MAGIC_1, the string eGON.BT1. -/
def egonMagic1 : List Nat := [0x65, 0x47, 0x4F, 0x4E, 0x2E, 0x42, 0x54, 0x31]

/-- memcmp on equal-length byte lists: sign of the first differing byte
pair, compared as unsigned values, as the C library function does. -/
def memcmpBytes : List Nat → List Nat → Ordering
  | [], [] => Ordering.eq
  | [], _ :: _ => Ordering.lt
  | _ :: _, [] => Ordering.gt
  | a :: as, b :: bs =>
    if a < b then Ordering.lt else if b < a then Ordering.gt
    else memcmpBytes as bs

/-- Observable actions of output_boot0_info and egon_checksum_verify:
one constructor per fprintf diagnostic or pseek call that the claims
mention, carrying the printed values. -/
inductive Event
  | errMagic (magic : List Nat)
  | errHeaderSize (v : Nat)
  | errFilesizeAlign (v : Nat)
  | errFilesizeZero
  | foundHeader
  | filesizeKB (v : Nat)
  | freadError (count : Nat)
  | checksumMismatch (computed declared : Nat)
  | checksumMatch
  | lookingForDram
  | dramReport (tag : Nat)
  | seek (bytes : Nat)
deriving DecidableEq, Repr

/-- One 32-bit wrapping addition of every word of a buffer into the
running checksum, as the inner loops of egon_checksum_verify do. -/
def csumAdd (cs : Nat) (buf : List Nat) : Nat :=
  buf.foldl (fun c x => (c + x) % 2 ^ 32) cs

/-- The sector-0 part of egon_checksum_verify: add words 0..127 of the
already-read sector into the seed, skipping the checksum word (index 3 =
offsetof checksum / 4). -/
def egon_sector0_sum (s0 : Nat → Nat) : Nat :=
  (List.range 128).foldl
    (fun c i => if i = 3 then c else (c + s0 i) % 2 ^ 32) EGON_CHECKSUM_SEED

/-- The streaming loop of egon_checksum_verify: starting at byte offset
512, while offset < filesize read one 128-word sector from the script and
add it in; a read of other than 128 words stops the loop and yields the
fread return count (the C function returns that count); an exhausted
script behaves like fread at end of file, returning 0 words. -/
def checksumLoop : Nat → Nat → Nat → List (List Nat) → Except Nat Nat
  | cs, offset, filesize, [] =>
    if offset < filesize then Except.error 0 else Except.ok cs
  | cs, offset, filesize, r :: rs =>
    if offset < filesize then
      if r.length ≠ 128 then Except.error r.length
      else checksumLoop (csumAdd cs r) (offset + 512) filesize rs
    else Except.ok cs

/-- egon_checksum_verify: returns the C return value (0 on completion,
the short fread count on a failed read) together with the emitted
diagnostics. -/
def egon_checksum_verify (declared filesize : Nat) (s0 : Nat → Nat)
    (reads : List (List Nat)) : Nat × List Event :=
  match checksumLoop (egon_sector0_sum s0) 512 filesize reads with
  | Except.error ret => (ret, [Event.freadError ret])
  | Except.ok cs =>
    (0, [if cs = declared then Event.checksumMatch
         else Event.checksumMismatch cs declared])

/-- Number of 512-byte sectors after sector 0, i.e. of offsets 512 * j,
j ≥ 1, below filesize. -/
def subSectorCount (filesize : Nat) : Nat := (filesize - 1) / 512

/-- Modelled from the spec and the claim text: the reference whole-image
checksum.  Start from the fixed seed, add all 128 words of sector 0
except word 3, then all words of every subsequent sector, all with
unsigned 32-bit wraparound (a single final reduction modulo 2 ^ 32 is
equivalent to wrapping at each addition). -/
def egon_checksum_reference (s0 : Nat → Nat) (sectors : List (List Nat)) :
    Nat :=
  (EGON_CHECKSUM_SEED +
    ((List.range 128).map (fun i => if i = 3 then 0 else s0 i)).sum +
    (sectors.map List.sum).sum) % 2 ^ 32

/-- dram_param_a10_validate: sequential plausibility checks on the
32-word window read through the dram_param_a10 layout (baseaddr = word 0,
clk = word 1, type = word 2, odt_en = word 9). -/
def dram_param_a10_validate (w : Nat → Nat) : Bool :=
  if w 0 &&& 0x0FFFFFFF ≠ 0 then false
  else if w 1 < 100 ∨ 1000 < w 1 then false
  else if w 2 ≠ 2 ∧ w 2 ≠ 3 then false
  else if w 9 ≠ 0 ∧ w 9 ≠ 1 then false
  else true

/-- dram_param_a31_validate: checks through the dram_param_a31 layout
(clk = word 0, type = word 1, odt_en = word 3). -/
def dram_param_a31_validate (w : Nat → Nat) : Bool :=
  if w 0 < 100 ∨ 1000 < w 0 then false
  else if w 1 ≠ 2 ∧ w 1 ≠ 3 ∧ w 1 ≠ 6 ∧ w 1 ≠ 7 then false
  else if w 3 ≠ 0 ∧ w 3 ≠ 1 then false
  else true

/-- dram_param_h6_validate: checks through the dram_param_h6 layout
(clk = word 0, type = word 1, odt_en = word 3, bits = word 27). -/
def dram_param_h6_validate (w : Nat → Nat) : Bool :=
  if w 0 < 100 ∨ 1000 < w 0 then false
  else if w 1 ≠ 2 ∧ w 1 ≠ 3 ∧ w 1 ≠ 6 ∧ w 1 ≠ 7 then false
  else if w 3 ≠ 0 ∧ w 3 ≠ 1 then false
  else if w 27 ≠ 16 ∧ w 27 ≠ 32 then false
  else true

/-- dram_param_h616_validate: checks through the dram_param_h616 layout
(clk = word 0, type = word 1, dx_odt = word 2, dx_dri = word 3). -/
def dram_param_h616_validate (w : Nat → Nat) : Bool :=
  if w 0 < 100 ∨ 1200 < w 0 then false
  else if w 1 ≠ 2 ∧ w 1 ≠ 3 ∧ w 1 ≠ 4 ∧ w 1 ≠ 6 ∧ w 1 ≠ 7 ∧ w 1 ≠ 8
    then false
  else if w 2 &&& 0xF0F0F0F0 ≠ 0 then false
  else if w 3 &&& 0xF0F0F0F0 ≠ 0 then false
  else true

/-- Variant tags, numbered for the Event payload. -/
def tagA10 : Nat := 0
def tagH6 : Nat := 1
def tagA31 : Nat := 2
def tagH616 : Nat := 3
def tagRaw : Nat := 4

/-- The if/else-if validator chain of output_boot0_info, in source
order: A10, then H6, then A31, then H616, else the raw dump. -/
def dram_param_detect (w : Nat → Nat) : Nat :=
  if dram_param_a10_validate w then tagA10
  else if dram_param_h6_validate w then tagH6
  else if dram_param_a31_validate w then tagA31
  else if dram_param_h616_validate w then tagH616
  else tagRaw

/-- Modelled from the spec: the detection order the specification
describes, H6 first, then A31, then A10, then H616, else the raw dump. -/
def dram_param_detect_spec (w : Nat → Nat) : Nat :=
  if dram_param_h6_validate w then tagH6
  else if dram_param_a31_validate w then tagA31
  else if dram_param_a10_validate w then tagA10
  else if dram_param_h616_validate w then tagH616
  else tagRaw

/-- output_boot0_info: magic, header_size and filesize checks, then
either the verbose path (checksum verification and DRAM-parameter
report) or the non-verbose forward seek.  Returns the C return value
(sectors remaining, or 0) together with the observable events.  The
DRAM-parameter window starts at byte offset header_size + 8 = 56, i.e.
at word 14 of the sector. -/
def output_boot0_info (sector : List Nat) (reads : List (List Nat))
    (seekOk : Bool) (verbose : Bool) : Nat × List Event :=
  if memcmpBytes (magicBytes sector) egonMagic0 = Ordering.gt then
    (0, [Event.errMagic (magicBytes sector)])
  else if hdrHeaderSize sector ≠ 48 then
    (0, [Event.errHeaderSize (hdrHeaderSize sector)])
  else if hdrFilesize sector &&& (4096 - 1) ≠ 0 then
    (0, [Event.errFilesizeAlign (hdrFilesize sector)])
  else if hdrFilesize sector = 0 then
    (0, [Event.errFilesizeZero])
  else if verbose then
    let pre := [Event.foundHeader, Event.filesizeKB (hdrFilesize sector >>> 10)]
    let v := egon_checksum_verify (hdrChecksum sector) (hdrFilesize sector)
      (fun i => sWord sector i) reads
    if v.1 ≠ 0 then (0, pre ++ v.2)
    else
      (hdrFilesize sector / 512 - 1,
        pre ++ v.2 ++ [Event.lookingForDram,
          Event.dramReport (dram_param_detect (fun i => sWord sector (14 + i)))])
  else if seekOk then
    (hdrFilesize sector / 512 - 1, [Event.seek (hdrFilesize sector - 512)])
  else
    (0, [Event.seek (hdrFilesize sector - 512)])

/-- Little-endian 4-byte encoding of a 32-bit value, for concrete test
sectors. -/
def toLE4 (x : Nat) : List Nat :=
  [x % 256, x / 256 % 256, x / 65536 % 256, x / 16777216 % 256]

/-- Concrete 512-byte test sector: given magic bytes, checksum, filesize
and header_size fields, all other bytes zero. -/
def mkSector (magic : List Nat) (checksum filesize headerSize : Nat) :
    List Nat :=
  [0, 0, 0, 0] ++ magic ++ toLE4 checksum ++ toLE4 filesize ++
    toLE4 headerSize ++ List.replicate 488 0

lemma csumAdd_eq (l : List Nat) : ∀ cs : Nat, cs < 2 ^ 32 →
    csumAdd cs l = (cs + l.sum) % 2 ^ 32 := by
  induction l with
  | nil => intro cs h; simp only [csumAdd, List.foldl_nil, List.sum_nil]; omega
  | cons x xs ih =>
    intro cs h
    simp only [csumAdd, List.foldl_cons, List.sum_cons]
    have h2 : (cs + x) % 2 ^ 32 < 2 ^ 32 := Nat.mod_lt _ (by norm_num)
    have := ih ((cs + x) % 2 ^ 32) h2
    simp only [csumAdd] at this
    rw [this, Nat.mod_add_mod]
    omega

lemma egon_sector0_fold (s0 : Nat → Nat) (n : Nat) :
    (List.range n).foldl
      (fun c i => if i = 3 then c else (c + s0 i) % 2 ^ 32)
      EGON_CHECKSUM_SEED =
    (EGON_CHECKSUM_SEED +
      ((List.range n).map (fun i => if i = 3 then 0 else s0 i)).sum) %
      2 ^ 32 := by
  induction n with
  | zero => simp [EGON_CHECKSUM_SEED]
  | succ n ih =>
    rw [List.range_succ, List.foldl_append, List.map_append, List.sum_append,
      ih]
    by_cases h : n = 3
    · simp [h]
    · simp only [List.foldl_cons, List.foldl_nil, List.map_cons, List.map_nil,
        List.sum_cons, List.sum_nil, if_neg h]
      rw [Nat.mod_add_mod]
      omega

lemma egon_sector0_sum_eq (s0 : Nat → Nat) :
    egon_sector0_sum s0 =
    (EGON_CHECKSUM_SEED +
      ((List.range 128).map (fun i => if i = 3 then 0 else s0 i)).sum) %
      2 ^ 32 :=
  egon_sector0_fold s0 128

lemma egon_sector0_sum_lt (s0 : Nat → Nat) : egon_sector0_sum s0 < 2 ^ 32 := by
  rw [egon_sector0_sum_eq]; exact Nat.mod_lt _ (by norm_num)

lemma checksumLoop_ok (reads : List (List Nat)) :
    ∀ cs offset filesize : Nat, cs < 2 ^ 32 →
    (∀ r ∈ reads, r.length = 128) →
    filesize ≤ offset + 512 * reads.length →
    checksumLoop cs offset filesize reads =
      Except.ok ((cs +
        ((reads.take ((filesize - offset + 511) / 512)).map List.sum).sum) %
        2 ^ 32) := by
  induction reads with
  | nil =>
    intro cs offset filesize hcs _ hle
    simp only [List.length_nil, Nat.mul_zero, Nat.add_zero] at hle
    have hnot : ¬ offset < filesize := by omega
    simp [checksumLoop, hnot]
    omega
  | cons r rs ih =>
    intro cs offset filesize hcs hfull hle
    by_cases h : offset < filesize
    · have hr : r.length = 128 := hfull r (List.mem_cons_self r rs)
      have hcnt : (filesize - offset + 511) / 512 =
          (filesize - (offset + 512) + 511) / 512 + 1 := by omega
      rw [hcnt]
      simp only [checksumLoop, if_pos h, hr]
      rw [if_neg (by omega : ¬ (128 : Nat) ≠ 128)]
      rw [csumAdd_eq r cs hcs]
      have hcs2 : (cs + r.sum) % 2 ^ 32 < 2 ^ 32 := Nat.mod_lt _ (by norm_num)
      rw [ih _ _ _ hcs2 (fun x hx => hfull x (List.mem_cons_of_mem r hx))
        (by simp at hle ⊢; omega)]
      rw [List.take_succ_cons, List.map_cons, List.sum_cons, Nat.mod_add_mod]
      congr 2
      omega
    · have hz : filesize - offset = 0 := by omega
      simp [checksumLoop, h, hz]
      omega

lemma checksumLoop_full (filesize : Nat) (cs : Nat) (reads : List (List Nat))
    (hcs : cs < 2 ^ 32) (hfull : ∀ r ∈ reads, r.length = 128)
    (hlen : reads.length = subSectorCount filesize) :
    checksumLoop cs 512 filesize reads =
      Except.ok ((cs + (reads.map List.sum).sum) % 2 ^ 32) := by
  have hle : filesize ≤ 512 + 512 * reads.length := by
    rw [hlen]; unfold subSectorCount; omega
  rw [checksumLoop_ok reads cs 512 filesize hcs hfull hle]
  have hcnt : (filesize - 512 + 511) / 512 = reads.length := by
    rw [hlen]; unfold subSectorCount; omega
  rw [hcnt, List.take_length]

lemma checksumLoop_computes_reference (filesize : Nat)
    (s0 : Nat → Nat) (reads : List (List Nat))
    (hfull : ∀ r ∈ reads, r.length = 128)
    (hlen : reads.length = subSectorCount filesize) :
    checksumLoop (egon_sector0_sum s0) 512 filesize reads =
      Except.ok (egon_checksum_reference s0 reads) := by
  rw [checksumLoop_full filesize (egon_sector0_sum s0) reads
    (egon_sector0_sum_lt s0) hfull hlen]
  rw [egon_sector0_sum_eq, egon_checksum_reference, Nat.mod_add_mod]

/-- Claim C1: the whole-image checksum computed by the verifier equals
the reference definition: seed 0x5f0a6c39, plus all 128 words of sector 0
except word index 3, plus all 128 words of every subsequent sector up to
but not including filesize, with unsigned 32-bit wraparound.  The reads
script holds exactly the image's subsequent sectors (one full 128-word
read per sector below filesize). -/
theorem egon_checksum_computed_eq_reference (filesize : Nat)
    (s0 : Nat → Nat) (reads : List (List Nat))
    (hfull : ∀ r ∈ reads, r.length = 128)
    (hlen : reads.length = subSectorCount filesize) :
    checksumLoop (egon_sector0_sum s0) 512 filesize reads =
      Except.ok (egon_checksum_reference s0 reads) :=
  checksumLoop_computes_reference filesize s0 reads hfull hlen

/-- Witness for C1 at a concrete 4096-byte image of seven zero sectors
after sector 0. -/
theorem egon_checksum_computed_eq_reference_witness :
    (∀ r ∈ List.replicate 7 (List.replicate 128 0), List.length r = 128) ∧
    checksumLoop (egon_sector0_sum fun _ => (0 : Nat)) 512 4096
        (List.replicate 7 (List.replicate 128 0)) =
      Except.ok (egon_checksum_reference (fun _ => (0 : Nat))
        (List.replicate 7 (List.replicate 128 0))) :=
  ⟨by decide, egon_checksum_computed_eq_reference 4096 (fun _ => 0)
    (List.replicate 7 (List.replicate 128 0)) (by decide) (by decide)⟩

lemma and_mask28 (x : Nat) : x &&& 0x0FFFFFFF = x % 2 ^ 28 := by
  have h := Nat.and_pow_two_sub_one_eq_mod x 28
  norm_num at h ⊢
  exact h

/-- Modelled from the spec table: A10 plausibility, with the base
address condition phrased as the spec does (low 28 bits zero). -/
def dram_param_a10_plausible (w : Nat → Nat) : Prop :=
  w 0 % 2 ^ 28 = 0 ∧ (100 ≤ w 1 ∧ w 1 ≤ 1000) ∧ (w 2 = 2 ∨ w 2 = 3) ∧
    (w 9 = 0 ∨ w 9 = 1)

/-- Modelled from the spec table: A31 plausibility. -/
def dram_param_a31_plausible (w : Nat → Nat) : Prop :=
  (100 ≤ w 0 ∧ w 0 ≤ 1000) ∧ (w 1 = 2 ∨ w 1 = 3 ∨ w 1 = 6 ∨ w 1 = 7) ∧
    (w 3 = 0 ∨ w 3 = 1)

/-- Modelled from the spec table: H6 plausibility. -/
def dram_param_h6_plausible (w : Nat → Nat) : Prop :=
  (100 ≤ w 0 ∧ w 0 ≤ 1000) ∧ (w 1 = 2 ∨ w 1 = 3 ∨ w 1 = 6 ∨ w 1 = 7) ∧
    (w 3 = 0 ∨ w 3 = 1) ∧ (w 27 = 16 ∨ w 27 = 32)

/-- Modelled from the spec table: H616 plausibility. -/
def dram_param_h616_plausible (w : Nat → Nat) : Prop :=
  (100 ≤ w 0 ∧ w 0 ≤ 1200) ∧
    (w 1 = 2 ∨ w 1 = 3 ∨ w 1 = 4 ∨ w 1 = 6 ∨ w 1 = 7 ∨ w 1 = 8) ∧
    w 2 &&& 0xF0F0F0F0 = 0 ∧ w 3 &&& 0xF0F0F0F0 = 0

/-- Claim C4: each variant validator accepts exactly when all of that
variant's tabulated plausibility predicates hold on the window decoded
under that variant's layout; in particular the H616 validator accepts iff
clock is in 100..1200, type is one of 2,3,4,6,7,8 and dx_odt, dx_dri have
no bits in mask 0xF0F0F0F0, and the H6 validator accepts iff clock is in
100..1000, type is one of 2,3,6,7, odt_en is 0 or 1 and bits is 16 or
32. -/
theorem dram_validators_iff_plausibility (w : Nat → Nat) :
    (dram_param_a10_validate w = true ↔ dram_param_a10_plausible w) ∧
    (dram_param_a31_validate w = true ↔ dram_param_a31_plausible w) ∧
    (dram_param_h6_validate w = true ↔ dram_param_h6_plausible w) ∧
    (dram_param_h616_validate w = true ↔ dram_param_h616_plausible w) := by
  refine ⟨?_, ?_, ?_, ?_⟩
  · unfold dram_param_a10_validate dram_param_a10_plausible
    simp only [and_mask28]
    split_ifs <;> simp <;> omega
  · unfold dram_param_a31_validate dram_param_a31_plausible
    split_ifs <;> simp <;> omega
  · unfold dram_param_h6_validate dram_param_h6_plausible
    split_ifs <;> simp <;> omega
  · unfold dram_param_h616_validate dram_param_h616_plausible
    split_ifs <;> simp <;> omega

lemma a10_validate_mask (w : Nat → Nat)
    (h : dram_param_a10_validate w = true) : w 0 &&& 0x0FFFFFFF = 0 := by
  by_contra hne
  unfold dram_param_a10_validate at h
  rw [if_pos hne] at h
  exact Bool.false_ne_true h

lemma a10_validate_excl (w : Nat → Nat)
    (h : dram_param_a10_validate w = true) :
    dram_param_h6_validate w = false ∧ dram_param_a31_validate w = false ∧
    dram_param_h616_validate w = false := by
  have hm := a10_validate_mask w h
  rw [and_mask28] at hm
  have hclk : w 0 < 100 ∨ 1200 < w 0 := by omega
  refine ⟨?_, ?_, ?_⟩
  · unfold dram_param_h6_validate
    rw [if_pos (by omega : w 0 < 100 ∨ 1000 < w 0)]
  · unfold dram_param_a31_validate
    rw [if_pos (by omega : w 0 < 100 ∨ 1000 < w 0)]
  · unfold dram_param_h616_validate
    rw [if_pos (by omega : w 0 < 100 ∨ 1200 < w 0)]

/-- Claim C10: the A10 predicate set is mutually exclusive with each of
the H6, A31 and H616 predicate sets: A10 needs the low 28 bits of word 0
to be zero, while the other three need word 0 (their clock) in a range
within 100..1200, and no value satisfies both; so matching A10 first can
never shadow the other three variants. -/
theorem a10_exclusive_with_others (w : Nat → Nat)
    (h : dram_param_a10_validate w = true) :
    dram_param_h6_validate w = false ∧ dram_param_a31_validate w = false ∧
    dram_param_h616_validate w = false :=
  a10_validate_excl w h

/-- Concrete A10-plausible window: base address 0x40000000, clock 360,
type 3, odt_en 0. -/
def a10Window : Nat → Nat :=
  fun i => if i = 0 then 0x40000000 else if i = 1 then 360 else
    if i = 2 then 3 else 0

/-- Witness for C10 at the concrete A10 window. -/
theorem a10_exclusive_with_others_witness :
    dram_param_a10_validate a10Window = true ∧
    (dram_param_h6_validate a10Window = false ∧
     dram_param_a31_validate a10Window = false ∧
     dram_param_h616_validate a10Window = false) :=
  ⟨by decide, a10_exclusive_with_others a10Window (by decide)⟩

/-- Claim C3: the detector (source order A10, H6, A31, H616) selects the
same variant as the priority order the spec states (H6, then A31, then
A10, then H616, else the raw fallback); and any window satisfying both
the H6 and the A31 predicates is detected as H6, never A31. -/
theorem dram_detect_priority_order (w : Nat → Nat) :
    dram_param_detect w = dram_param_detect_spec w ∧
    (dram_param_h6_validate w = true → dram_param_a31_validate w = true →
      dram_param_detect w = tagH6) := by
  constructor
  · by_cases ha : dram_param_a10_validate w = true
    · obtain ⟨h6f, a31f, h616f⟩ := a10_validate_excl w ha
      simp [dram_param_detect, dram_param_detect_spec, ha, h6f, a31f, h616f]
    · have ha' : dram_param_a10_validate w = false :=
        Bool.not_eq_true _ ▸ eq_false_of_ne_true ha
      simp [dram_param_detect, dram_param_detect_spec, ha']
  · intro h6 _
    have ha : dram_param_a10_validate w = false := by
      cases hb : dram_param_a10_validate w
      · rfl
      · have := (a10_validate_excl w hb).1
        rw [h6] at this
        exact absurd this (by simp)
    simp [dram_param_detect, ha, h6]

/-- Concrete window satisfying both the H6 and the A31 predicates:
clock 200, type 3, odt_en 0, bits 16. -/
def h6a31Window : Nat → Nat :=
  fun i => if i = 0 then 200 else if i = 1 then 3 else
    if i = 27 then 16 else 0

/-- Witness for C3 at the concrete overlap window. -/
theorem dram_detect_priority_order_witness :
    dram_param_h6_validate h6a31Window = true ∧
    dram_param_a31_validate h6a31Window = true ∧
    dram_param_detect h6a31Window = tagH6 :=
  ⟨by decide, by decide,
    (dram_detect_priority_order h6a31Window).2 (by decide) (by decide)⟩

lemma sum_map_range_update (f : Nat → Nat) (p b : Nat) :
    ∀ n, p < n →
    ((List.range n).map (Function.update f p b)).sum + f p =
      ((List.range n).map f).sum + b := by
  intro n
  induction n with
  | zero => omega
  | succ n ih =>
    intro hp
    rw [List.range_succ, List.map_append, List.map_append, List.sum_append,
      List.sum_append]
    by_cases h : p = n
    · subst h
      have hmap : (List.range p).map (Function.update f p b) =
          (List.range p).map f := by
        apply List.map_congr_left
        intro i hi
        have : i ≠ p := by
          have := List.mem_range.mp hi; omega
        simp [Function.update, this]
      rw [hmap]
      simp [Function.update]
      omega
    · have hp' : p < n := by omega
      have := ih hp'
      simp only [List.map_cons, List.map_nil, List.sum_cons, List.sum_nil]
      rw [Function.update_noteq (by omega : n ≠ p)]
      omega

lemma update_if3 (f : Nat → Nat) (p b : Nat) (hp : p ≠ 3) :
    (fun i => if i = 3 then 0 else Function.update f p b i) =
      Function.update (fun i => if i = 3 then 0 else f i) p b := by
  funext i
  by_cases hip : i = p
  · subst hip
    simp [Function.update, hp]
  · simp [Function.update, hip]

lemma sum_set_nat : ∀ (l : List Nat) (i b : Nat), i < l.length →
    (l.set i b).sum + l.getD i 0 = l.sum + b := by
  intro l
  induction l with
  | nil => intro i b h; simp at h
  | cons x xs ih =>
    intro i b h
    cases i with
    | zero => simp [List.set]; omega
    | succ i =>
      simp only [List.set, List.sum_cons, List.getD_cons_succ]
      have := ih i b (by simp at h; omega)
      omega

lemma sum_map_set : ∀ (l : List (List Nat)) (j : Nat) (x : List Nat),
    j < l.length →
    ((l.set j x).map List.sum).sum + (l.getD j []).sum =
      (l.map List.sum).sum + x.sum := by
  intro l
  induction l with
  | nil => intro j x h; simp at h
  | cons r rs ih =>
    intro j x h
    cases j with
    | zero => simp [List.set]; omega
    | succ j =>
      simp only [List.set, List.map_cons, List.sum_cons, List.getD_cons_succ]
      have := ih j x (by simp at h; omega)
      omega

/-- Claim C9: with the image being sector 0 plus exactly the sectors
below filesize, changing any single 32-bit word to a different 32-bit
value changes the checksum the verifier computes — except for word 3 of
sector 0 (the checksum field itself), whose value never affects the
computed checksum. -/
theorem checksum_word_mutation (filesize : Nat) (s0 : Nat → Nat)
    (reads : List (List Nat))
    (hfull : ∀ r ∈ reads, r.length = 128)
    (hlen : reads.length = subSectorCount filesize) :
    (∀ p b, p < 128 → p ≠ 3 → s0 p < 2 ^ 32 → b < 2 ^ 32 → b ≠ s0 p →
      checksumLoop (egon_sector0_sum (Function.update s0 p b)) 512 filesize
          reads ≠
        checksumLoop (egon_sector0_sum s0) 512 filesize reads) ∧
    (∀ b,
      checksumLoop (egon_sector0_sum (Function.update s0 3 b)) 512 filesize
          reads =
        checksumLoop (egon_sector0_sum s0) 512 filesize reads) ∧
    (∀ j i b, j < reads.length → i < 128 →
      (reads.getD j []).getD i 0 < 2 ^ 32 → b < 2 ^ 32 →
      b ≠ (reads.getD j []).getD i 0 →
      checksumLoop (egon_sector0_sum s0) 512 filesize
          (reads.set j ((reads.getD j []).set i b)) ≠
        checksumLoop (egon_sector0_sum s0) 512 filesize reads) := by
  refine ⟨?_, ?_, ?_⟩
  · intro p b hp hp3 hv hb hne
    rw [checksumLoop_full filesize _ reads (egon_sector0_sum_lt _) hfull hlen,
      checksumLoop_full filesize _ reads (egon_sector0_sum_lt _) hfull hlen]
    simp only [ne_eq, Except.ok.injEq]
    rw [egon_sector0_sum_eq, egon_sector0_sum_eq, update_if3 s0 p b hp3]
    have hsum := sum_map_range_update (fun i => if i = 3 then 0 else s0 i)
      p b 128 hp
    simp only [hp3, if_false] at hsum
    rw [Nat.mod_add_mod, Nat.mod_add_mod]
    omega
  · intro b
    have heq : (fun i => if i = 3 then 0 else Function.update s0 3 b i) =
        (fun i => if i = 3 then 0 else s0 i) := by
      funext i
      by_cases h : i = 3
      · simp [h]
      · simp [h, Function.update_noteq h]
    have : egon_sector0_sum (Function.update s0 3 b) = egon_sector0_sum s0 := by
      rw [egon_sector0_sum_eq, egon_sector0_sum_eq, heq]
    rw [this]
  · intro j i b hj hi ha hb hne
    have hbuf : (reads.getD j []).length = 128 := by
      have hmem : reads.getD j [] ∈ reads := by
        rw [List.getD_eq_getElem reads [] hj]
        exact List.getElem_mem hj
      exact hfull _ hmem
    have hfull' : ∀ r ∈ reads.set j ((reads.getD j []).set i b),
        r.length = 128 := by
      intro r hr
      rcases List.mem_or_eq_of_mem_set hr with h | h
      · exact hfull r h
      · rw [h, List.length_set]; exact hbuf
    have hlen' : (reads.set j ((reads.getD j []).set i b)).length =
        subSectorCount filesize := by rw [List.length_set]; exact hlen
    rw [checksumLoop_full filesize _ _ (egon_sector0_sum_lt _) hfull' hlen',
      checksumLoop_full filesize _ reads (egon_sector0_sum_lt _) hfull hlen]
    simp only [ne_eq, Except.ok.injEq]
    have h1 := sum_map_set reads j ((reads.getD j []).set i b) hj
    have h2 := sum_set_nat (reads.getD j []) i b (by omega)
    omega

/-- Witness for C9 at a concrete 1024-byte all-zero image: raising
sector-0 word 0 to 1 changes the checksum, rewriting the checksum word 3
does not, and raising word 0 of the following sector to 1 changes it. -/
theorem checksum_word_mutation_witness :
    (checksumLoop (egon_sector0_sum (Function.update (fun _ => (0 : Nat)) 0 1))
        512 1024 [List.replicate 128 0] ≠
      checksumLoop (egon_sector0_sum (fun _ => (0 : Nat))) 512 1024
        [List.replicate 128 0]) ∧
    (checksumLoop (egon_sector0_sum (Function.update (fun _ => (0 : Nat)) 3 5))
        512 1024 [List.replicate 128 0] =
      checksumLoop (egon_sector0_sum (fun _ => (0 : Nat))) 512 1024
        [List.replicate 128 0]) ∧
    (checksumLoop (egon_sector0_sum (fun _ => (0 : Nat))) 512 1024
        ([List.replicate 128 0].set 0
          (([List.replicate 128 0].getD 0 []).set 0 1)) ≠
      checksumLoop (egon_sector0_sum (fun _ => (0 : Nat))) 512 1024
        [List.replicate 128 0]) :=
  ⟨(checksum_word_mutation 1024 (fun _ => 0) [List.replicate 128 0]
      (by decide) (by decide)).1 0 1 (by decide) (by decide) (by decide)
      (by decide) (by decide),
   (checksum_word_mutation 1024 (fun _ => 0) [List.replicate 128 0]
      (by decide) (by decide)).2.1 5,
   (checksum_word_mutation 1024 (fun _ => 0) [List.replicate 128 0]
      (by decide) (by decide)).2.2 0 0 1 (by decide) (by decide) (by decide)
      (by decide) (by decide)⟩

lemma checksumLoop_short (pre : List (List Nat)) :
    ∀ cs offset filesize : Nat, ∀ r : List Nat, ∀ rest : List (List Nat),
    (∀ x ∈ pre, x.length = 128) → r.length ≠ 128 →
    offset + 512 * pre.length < filesize →
    checksumLoop cs offset filesize (pre ++ r :: rest) =
      Except.error r.length := by
  induction pre with
  | nil =>
    intro cs offset filesize r rest _ hshort hlt
    simp only [List.length_nil, Nat.mul_zero, Nat.add_zero] at hlt
    simp [checksumLoop, hlt, hshort]
  | cons x xs ih =>
    intro cs offset filesize r rest hfull hshort hlt
    have hx : x.length = 128 := hfull x (List.mem_cons_self x xs)
    have hlt' : offset < filesize := by
      simp only [List.length_cons] at hlt; omega
    simp only [List.cons_append, checksumLoop, if_pos hlt', hx]
    rw [if_neg (by omega : ¬ (128 : Nat) ≠ 128)]
    exact ih _ _ _ r rest (fun y hy => hfull y (List.mem_cons_of_mem x hy))
      hshort (by simp at hlt; omega)

lemma output_verbose_eq (sector : List Nat) (reads : List (List Nat))
    (seekOk : Bool)
    (hm : memcmpBytes (magicBytes sector) egonMagic0 ≠ Ordering.gt)
    (hhs : hdrHeaderSize sector = 48)
    (halign : hdrFilesize sector &&& (4096 - 1) = 0)
    (hnz : hdrFilesize sector ≠ 0) :
    output_boot0_info sector reads seekOk true =
      (if (egon_checksum_verify (hdrChecksum sector) (hdrFilesize sector)
            (fun i => sWord sector i) reads).1 ≠ 0 then
        (0, [Event.foundHeader, Event.filesizeKB (hdrFilesize sector >>> 10)]
          ++ (egon_checksum_verify (hdrChecksum sector) (hdrFilesize sector)
            (fun i => sWord sector i) reads).2)
      else
        (hdrFilesize sector / 512 - 1,
          [Event.foundHeader, Event.filesizeKB (hdrFilesize sector >>> 10)]
          ++ (egon_checksum_verify (hdrChecksum sector) (hdrFilesize sector)
            (fun i => sWord sector i) reads).2
          ++ [Event.lookingForDram,
            Event.dramReport
              (dram_param_detect (fun i => sWord sector (14 + i)))])) := by
  unfold output_boot0_info
  rw [if_neg hm, if_neg (by simp [hhs]), if_neg (by simp [halign]),
    if_neg hnz, if_pos rfl]

/-- Claim C8: a checksum mismatch is a non-fatal warning: with a
structurally valid header and a fully readable image whose computed
checksum differs from the declared field, output_boot0_info reports the
mismatch with both values, still produces the DRAM-parameter report, and
returns filesize / 512 - 1. -/
theorem checksum_mismatch_nonfatal (sector : List Nat)
    (reads : List (List Nat))
    (hm : memcmpBytes (magicBytes sector) egonMagic0 ≠ Ordering.gt)
    (hhs : hdrHeaderSize sector = 48)
    (halign : hdrFilesize sector &&& (4096 - 1) = 0)
    (hnz : hdrFilesize sector ≠ 0)
    (hfull : ∀ r ∈ reads, r.length = 128)
    (hlen : reads.length = subSectorCount (hdrFilesize sector))
    (hmis : egon_checksum_reference (fun i => sWord sector i) reads ≠
      hdrChecksum sector) :
    output_boot0_info sector reads true true =
      (hdrFilesize sector / 512 - 1,
        [Event.foundHeader, Event.filesizeKB (hdrFilesize sector >>> 10),
         Event.checksumMismatch
           (egon_checksum_reference (fun i => sWord sector i) reads)
           (hdrChecksum sector),
         Event.lookingForDram,
         Event.dramReport
           (dram_param_detect (fun i => sWord sector (14 + i)))]) := by
  have hv : egon_checksum_verify (hdrChecksum sector) (hdrFilesize sector)
      (fun i => sWord sector i) reads =
      (0, [Event.checksumMismatch
        (egon_checksum_reference (fun i => sWord sector i) reads)
        (hdrChecksum sector)]) := by
    unfold egon_checksum_verify
    rw [checksumLoop_computes_reference (hdrFilesize sector) _ reads hfull
      hlen]
    simp [hmis]
  rw [output_verbose_eq sector reads true hm hhs halign hnz, hv]
  simp

/-- Witness for C8: a concrete 4096-byte image with magic eGON.BT0,
declared checksum 0 and all-zero payload sectors; the computed checksum
differs from 0 and the image is still reported with 7 sectors
remaining. -/
theorem checksum_mismatch_nonfatal_witness :
    output_boot0_info (mkSector egonMagic0 0 4096 48)
        (List.replicate 7 (List.replicate 128 0)) true true =
      (4096 / 512 - 1,
        [Event.foundHeader, Event.filesizeKB (4096 >>> 10),
         Event.checksumMismatch
           (egon_checksum_reference
             (fun i => sWord (mkSector egonMagic0 0 4096 48) i)
             (List.replicate 7 (List.replicate 128 0))) 0,
         Event.lookingForDram, Event.dramReport tagRaw]) := by
  have h := checksum_mismatch_nonfatal (mkSector egonMagic0 0 4096 48)
    (List.replicate 7 (List.replicate 128 0))
    (by decide) (by decide) (by decide) (by decide) (by decide) (by decide)
    (by decide)
  rw [h]
  rfl

/-- Counterexample to C5: with a structurally valid 4096-byte header and
a stream whose very first read returns zero words (a short read), the
inspection does NOT abort: the fread diagnostic is emitted, yet the
DRAM-parameter report is still produced and 7 sectors remaining are
returned, because egon_checksum_verify returns the fread count 0 and the
caller takes 0 for success. -/
theorem short_read_zero_continues_counterexample :
    output_boot0_info (mkSector egonMagic0 0 4096 48) [[]] true true =
      (7, [Event.foundHeader, Event.filesizeKB 4, Event.freadError 0,
           Event.lookingForDram, Event.dramReport tagRaw]) := by decide

/-- Claim C5 as amended: during verbose checksum streaming, a short read
(fewer than 128 words) always aborts checksum verification and is
reported with its word count; the whole inspection aborts with a
zero-sectors result exactly when that count is nonzero, while a read
returning zero words is treated as success by the caller, so the
DRAM-parameter report is still produced and filesize / 512 - 1 is
returned. -/
theorem short_read_behavior_amended (sector : List Nat)
    (pre : List (List Nat)) (r : List Nat) (rest : List (List Nat))
    (hm : memcmpBytes (magicBytes sector) egonMagic0 ≠ Ordering.gt)
    (hhs : hdrHeaderSize sector = 48)
    (halign : hdrFilesize sector &&& (4096 - 1) = 0)
    (hnz : hdrFilesize sector ≠ 0)
    (hpre : ∀ x ∈ pre, x.length = 128)
    (hshort : r.length ≠ 128)
    (hreach : 512 + 512 * pre.length < hdrFilesize sector) :
    (Event.freadError r.length ∈
      (output_boot0_info sector (pre ++ r :: rest) true true).2) ∧
    (r.length ≠ 0 →
      output_boot0_info sector (pre ++ r :: rest) true true =
        (0, [Event.foundHeader,
             Event.filesizeKB (hdrFilesize sector >>> 10),
             Event.freadError r.length])) ∧
    (r.length = 0 →
      (output_boot0_info sector (pre ++ r :: rest) true true).1 =
          hdrFilesize sector / 512 - 1 ∧
        Event.dramReport (dram_param_detect (fun i => sWord sector (14 + i)))
          ∈ (output_boot0_info sector (pre ++ r :: rest) true true).2) := by
  have hv : egon_checksum_verify (hdrChecksum sector) (hdrFilesize sector)
      (fun i => sWord sector i) (pre ++ r :: rest) =
      (r.length, [Event.freadError r.length]) := by
    unfold egon_checksum_verify
    rw [checksumLoop_short pre _ 512 (hdrFilesize sector) r rest hpre hshort
      (by omega)]
  rw [output_verbose_eq sector (pre ++ r :: rest) true hm hhs halign hnz, hv]
  by_cases h0 : r.length = 0
  · simp [h0]
  · simp [h0]

/-- Witness for C5 as amended, at a concrete valid 4096-byte header with
a 5-word short read arriving first. -/
theorem short_read_behavior_amended_witness :
    (Event.freadError 5 ∈
      (output_boot0_info (mkSector egonMagic0 0 4096 48)
        ([] ++ List.replicate 5 0 :: []) true true).2) ∧
    ((List.replicate 5 (0 : Nat)).length ≠ 0 →
      output_boot0_info (mkSector egonMagic0 0 4096 48)
          ([] ++ List.replicate 5 0 :: []) true true =
        (0, [Event.foundHeader, Event.filesizeKB 4, Event.freadError 5])) ∧
    ((List.replicate 5 (0 : Nat)).length = 0 →
      (output_boot0_info (mkSector egonMagic0 0 4096 48)
          ([] ++ List.replicate 5 0 :: []) true true).1 = 4096 / 512 - 1 ∧
        Event.dramReport
            (dram_param_detect
              (fun i => sWord (mkSector egonMagic0 0 4096 48) (14 + i)))
          ∈ (output_boot0_info (mkSector egonMagic0 0 4096 48)
              ([] ++ List.replicate 5 0 :: []) true true).2) := by
  have h := short_read_behavior_amended (mkSector egonMagic0 0 4096 48)
    [] (List.replicate 5 0) [] (by decide) (by decide) (by decide)
    (by decide) (by decide) (by decide) (by decide)
  exact ⟨by simpa using h.1, fun hh => by rw [h.2.1 (by decide)]; rfl,
    fun hh => by simp at hh⟩

/-- Claim C2 fails on the code: the magic check is memcmp greater-than
against eGON.BT0 only.  A magic of eight 0x41 bytes (AAAAAAAA), equal to
neither recognized constant, is accepted and the image is processed,
while the recognized constant eGON.BT1 compares greater and is rejected
with the magic diagnostic and a zero-sectors result. -/
theorem magic_check_not_equality :
    (List.replicate 8 0x41 ≠ egonMagic0 ∧
     List.replicate 8 0x41 ≠ egonMagic1 ∧
     magicBytes (mkSector (List.replicate 8 0x41) 0 4096 48) =
       List.replicate 8 0x41 ∧
     output_boot0_info (mkSector (List.replicate 8 0x41) 0 4096 48) []
       true false = (7, [Event.seek 3584])) ∧
    (magicBytes (mkSector egonMagic1 0 4096 48) = egonMagic1 ∧
     output_boot0_info (mkSector egonMagic1 0 4096 48) [] true false =
       (0, [Event.errMagic egonMagic1])) := by decide

/-- Claim C6 fails on the code for one of the two correct magics: a
fully valid PrimaryHeader with magic eGON.BT1, header_size 48 and
filesize 4096 is rejected by the magic check in non-verbose mode — no
seek is performed and 0 is returned instead of 4096 / 512 - 1.  With
magic eGON.BT0 the claimed behavior does hold: exactly one forward seek
of filesize - 512 = 3584 bytes and a result of 4096 / 512 - 1 = 7. -/
theorem nonverbose_seek_and_result :
    (output_boot0_info (mkSector egonMagic1 0 4096 48) [] true false =
      (0, [Event.errMagic egonMagic1])) ∧
    (output_boot0_info (mkSector egonMagic0 0 4096 48) [] true false =
      (4096 / 512 - 1, [Event.seek (4096 - 512)])) := by decide

/-- Claim C7 fails on the code in its magic-mismatch case: with every
other field valid, a wrong magic of eight 0x41 bytes is accepted (7
sectors, forward seek) instead of causing a zero-sectors soft failure;
the other three structural violations do each cause the claimed
zero-sectors soft failure with the matching diagnostic: header_size 47,
zero filesize, and misaligned filesize 6144. -/
theorem structural_violation_isolation :
    (output_boot0_info (mkSector (List.replicate 8 0x41) 0 4096 48) []
      true false = (7, [Event.seek 3584])) ∧
    (output_boot0_info (mkSector egonMagic0 0 4096 47) [] true false =
      (0, [Event.errHeaderSize 47])) ∧
    (output_boot0_info (mkSector egonMagic0 0 0 48) [] true false =
      (0, [Event.errFilesizeZero])) ∧
    (output_boot0_info (mkSector egonMagic0 0 6144 48) [] true false =
      (0, [Event.errFilesizeAlign 6144])) := by decide
